import Mathlib

/-!
Shallow embedding of the CLAP chugin host adapter (`src/CLAP/CLAP.cpp`,
class `CLAPWrapper`) together with the parameter-handling fragment of the
bundled example plugin (`src/CLAP/example-plugin/plugin.cpp`).

Modelling conventions:
* `SAMPLE` / `t_CKFLOAT` / `double` values are modelled as `Rat`; the code
  paths covered by the claims only copy values and perform the exact
  division `data2 / 127.0`, both exact over the rationals.
* `t_CKINT` is modelled as `Int`; the `int16_t` truncation that occurs when
  a `t_CKINT` is stored into an event's `key` field is modelled explicitly
  by `int16ofInt`.
* The loaded plugin is external native code; it is modelled as a state type
  `σ` plus an oracle of the plugin entry points the wrapper calls
  (`process`, `params->get_value`).  The dynamically loaded module is
  modelled by `ModuleDef`, recording the outcome of each lifecycle call
  that `CLAPWrapper::load` makes.
* Pointer-valued fields of the wrapper that the claims only ever test for
  null-ness (`m_library`, `m_entry`, the extension pointers) are modelled
  as `Bool` ("non-null").
* The event queue `std::vector<clap_event_param_value_t>` stores note
  events by writing them through the param-value slot via a reinterpret
  cast; the model stores an honest tagged variant (`QueuedEvent`) carrying
  exactly the fields the source writes.
* The `static bool errorLogged` inside `CLAPWrapper::tick` is a
  function-local static (process-wide in the source); it is carried as a
  field of the wrapper state, which coincides with the source for the
  single-adapter executions the claims quantify over.
-/

/-- CLAP process status code `CLAP_PROCESS_ERROR` (= 0). -/
def CLAP_PROCESS_ERROR : Nat := 0

/-- CLAP process status code `CLAP_PROCESS_CONTINUE` (= 1). -/
def CLAP_PROCESS_CONTINUE : Nat := 1

/-- CLAP event type `CLAP_EVENT_NOTE_ON` (= 0). -/
def CLAP_EVENT_NOTE_ON : Nat := 0

/-- CLAP event type `CLAP_EVENT_NOTE_OFF` (= 1). -/
def CLAP_EVENT_NOTE_OFF : Nat := 1

/-- CLAP event type `CLAP_EVENT_PARAM_VALUE` (= 5). -/
def CLAP_EVENT_PARAM_VALUE : Nat := 5

/-- Feature tag `CLAP_PLUGIN_FEATURE_INSTRUMENT`. -/
def CLAP_PLUGIN_FEATURE_INSTRUMENT : String := "instrument"

/-- Feature tag `CLAP_PLUGIN_FEATURE_SYNTHESIZER`. -/
def CLAP_PLUGIN_FEATURE_SYNTHESIZER : String := "synthesizer"

/-- Wrap an arbitrary `Int` into the range of a C `int16_t`
(two's-complement truncation, the in-practice behaviour of the
`int16_t = t_CKINT` stores in `CLAPWrapper::sendMIDI`). -/
def int16ofInt (x : Int) : Int :=
  (x + 32768) % 65536 - 32768

/-- `status & 0x0F` (the MIDI channel nibble): a two's-complement AND with
the mask `2^4 - 1` is the nonnegative remainder mod `16`. -/
def midiChannel (status : Int) : Int :=
  status % 16

/-- `status & 0xF0` (the MIDI message-type nibble): the low byte
(`status mod 256`, the two's-complement AND with `0xFF`) minus its low
nibble. -/
def midiMessageType (status : Int) : Int :=
  status % 256 - status % 16

/-- The payload of a `clap_event_param_value_t` as written by
`CLAPWrapper::setParameter` (header fields `time`; struct fields
`param_id`, `note_id`, `port_index`, `channel`, `key`, `value`). -/
structure ParamValueEvent where
  time : Nat
  paramId : Nat
  noteId : Int
  portIndex : Int
  channel : Int
  key : Int
  value : Rat
deriving Repr, DecidableEq

/-- The payload of a `clap_event_note_t` as written by
`CLAPWrapper::sendMIDI` (header fields `type`, `time`; struct fields
`note_id`, `port_index`, `channel`, `key`, `velocity`). -/
structure NoteEvent where
  etype : Nat
  time : Nat
  noteId : Int
  portIndex : Int
  channel : Int
  key : Int
  velocity : Rat
deriving Repr, DecidableEq

/-- One slot of `m_eventQueue`.  The source stores both layouts in a
`std::vector<clap_event_param_value_t>` (note events are written through a
reinterpret cast); the model keeps an honest tagged variant. -/
inductive QueuedEvent where
  | param (e : ParamValueEvent)
  | note (e : NoteEvent)
deriving Repr, DecidableEq

/-- The `header.time` stamp of a queued event. -/
def QueuedEvent.time : QueuedEvent → Nat
  | .param e => e.time
  | .note e => e.time

/-- `CLAPWrapper::ParameterInfo`: stable id plus display name, cached by
`cacheParameters`. -/
structure ParameterInfo where
  id : Nat
  name : String
deriving Repr, DecidableEq

/-- `CLAPWrapper::PresetInfo`. -/
structure PresetInfo where
  name : String
  location : String
  load_key : String
  location_kind : Nat
deriving Repr, DecidableEq

/-- `CLAPWrapper::DiscoveryLocation`. -/
structure DiscoveryLocation where
  name : String
  location : String
  kind : Nat
  flags : Nat
deriving Repr, DecidableEq

/-- Result of one plugin `process` call: the plugin's new internal state,
the returned `clap_process_status`, and the two output-channel samples it
left in the one-frame output buffer (the buffer is zeroed by the wrapper
before the call, so a plugin that writes nothing reports `0`). -/
structure ProcResult (σ : Type) where
  state : σ
  status : Nat
  outL : Rat
  outR : Rat
deriving Repr, DecidableEq

/-- The plugin entry points the wrapper invokes after loading: the
block-process call and the `params->get_value` query.  `process` receives
the input sample, the input-event list the wrapper exposes, and the
current steady time. -/
structure PluginOracle (σ : Type) where
  process : σ → Rat → List QueuedEvent → Nat → ProcResult σ
  getValue : σ → Nat → Option Rat

/-- The observable state of a `CLAPWrapper` object.  Pointer fields that
the claims only test for null are modelled as `Bool`. -/
structure Wrapper (σ : Type) where
  plugin : Option σ
  library : Bool
  entry : Bool
  sampleRate : Rat
  bypass : Bool
  isInstrument : Bool
  activated : Bool
  processing : Bool
  params : Bool
  audioPortsExt : Bool
  notePortsExt : Bool
  presetLoad : Bool
  presetDiscoveryFactory : Bool
  presetDiscoveryProvider : Bool
  steadyTime : Nat
  eventQueue : List QueuedEvent
  parameters : List ParameterInfo
  presets : List PresetInfo
  discoveryLocations : List DiscoveryLocation
  errorLogged : Bool
deriving Repr, DecidableEq

/-- The state established by the `CLAPWrapper` constructor: no module, no
plugin, everything empty, `steady_time = 0`; the `errorLogged` static
starts out false at process start. -/
def initWrapper (σ : Type) (sampleRate : Rat) : Wrapper σ where
  plugin := none
  library := false
  entry := false
  sampleRate := sampleRate
  bypass := false
  isInstrument := false
  activated := false
  processing := false
  params := false
  audioPortsExt := false
  notePortsExt := false
  presetLoad := false
  presetDiscoveryFactory := false
  presetDiscoveryProvider := false
  steadyTime := 0
  eventQueue := []
  parameters := []
  presets := []
  discoveryLocations := []
  errorLogged := false

/-- `CLAPWrapper::event_list_size` (line 886): the length of
`m_eventQueue`. -/
def event_list_size {σ : Type} (w : Wrapper σ) : Nat :=
  w.eventQueue.length

/-- `CLAPWrapper::event_list_get` (line 892): indexed access into
`m_eventQueue`, null for an out-of-range index. -/
def event_list_get {σ : Type} (w : Wrapper σ) (index : Nat) : Option QueuedEvent :=
  if w.eventQueue.length ≤ index then none
  else w.eventQueue.get? index

/-- The ordered input-event list the plugin's process call can read through
`m_inputEvents` (`size`/`get` callbacks): the queued events in order. -/
def inputEventList {σ : Type} (w : Wrapper σ) : List QueuedEvent :=
  (List.range (event_list_size w)).filterMap (event_list_get w)

/-- Result of one `CLAPWrapper::tick` call: the returned sample, the new
wrapper state, the input-event list that was exposed to the process call
(empty when no process call was made), and whether this call emitted the
"Processing error" diagnostic. -/
structure TickResult (σ : Type) where
  out : Rat
  state : Wrapper σ
  delivered : List QueuedEvent
  logged : Bool
deriving Repr, DecidableEq

/-- `CLAPWrapper::tick` (lines 339-373).  Early identity return when no
plugin is loaded, not processing, or bypassed; otherwise: run the plugin's
process call on the queued events, clear the queue, advance steady time,
and on `CLAP_PROCESS_ERROR` log once (via the function-local static) and
degrade to zero output for instruments / passthrough for effects. -/
def tick {σ : Type} (o : PluginOracle σ) (w : Wrapper σ) (input : Rat) : TickResult σ :=
  match w.plugin with
  | none => { out := input, state := w, delivered := [], logged := false }
  | some p =>
    if w.processing = false ∨ w.bypass = true then
      { out := input, state := w, delivered := [], logged := false }
    else
      let delivered := inputEventList w
      let r := o.process p input delivered w.steadyTime
      { out := if r.status = CLAP_PROCESS_ERROR then
                 (if w.isInstrument then 0 else input)
               else r.outL
        state := { w with plugin := some r.state
                          eventQueue := []
                          steadyTime := w.steadyTime + 1
                          errorLogged := w.errorLogged ||
                            decide (r.status = CLAP_PROCESS_ERROR) }
        delivered := delivered
        logged := decide (r.status = CLAP_PROCESS_ERROR) && !w.errorLogged }

/-- `CLAPWrapper::setParameter` (lines 375-399): fails without the params
extension or with an out-of-range index; otherwise appends one
param-value event (time 0, the cached real parameter id, sentinel `-1`
note/port/channel/key fields). -/
def setParameter {σ : Type} (w : Wrapper σ) (index : Int) (value : Rat) :
    Bool × Wrapper σ :=
  if w.params = false ∨ index < 0 ∨ (w.parameters.length : Int) ≤ index then
    (false, w)
  else
    match w.parameters.get? index.toNat with
    | some info =>
      (true, { w with eventQueue := w.eventQueue ++
        [QueuedEvent.param { time := 0, paramId := info.id, noteId := -1,
                             portIndex := -1, channel := -1, key := -1,
                             value := value }] })
    | none => (false, w)  -- unreachable: the guard put index in range

/-- The linear scan of `m_parameters` for the first case-sensitive exact
name match, shared by `setParameterByName` and `getParameterByName`. -/
def scanForName (name : String) : List ParameterInfo → Option Nat
  | [] => none
  | p :: rest =>
    if p.name = name then some 0
    else (scanForName name rest).map (· + 1)

/-- `CLAPWrapper::setParameterByName` (lines 401-414). -/
def setParameterByName {σ : Type} (w : Wrapper σ) (name : String) (value : Rat) :
    Bool × Wrapper σ :=
  if w.params = false then (false, w)
  else
    match scanForName name w.parameters with
    | some i => setParameter w (i : Int) value
    | none => (false, w)

/-- `CLAPWrapper::getParameter` (lines 416-428): synchronous
`params->get_value` query on the plugin; `0.0` on any failure.  It never
reads `m_eventQueue`. -/
def getParameter {σ : Type} (o : PluginOracle σ) (w : Wrapper σ) (index : Int) : Rat :=
  if w.params = false ∨ index < 0 ∨ (w.parameters.length : Int) ≤ index then 0
  else
    match w.parameters.get? index.toNat, w.plugin with
    | some info, some p =>
      match o.getValue p info.id with
      | some v => v
      | none => 0
    | _, _ => 0

/-- `CLAPWrapper::getParameterByName` (lines 430-448), returning the value
together with the `found` out-flag. -/
def getParameterByName {σ : Type} (o : PluginOracle σ) (w : Wrapper σ)
    (name : String) : Rat × Bool :=
  if w.params = false then (0, false)
  else
    match scanForName name w.parameters with
    | some i => (getParameter o w (i : Int), true)
    | none => (0, false)

/-- `CLAPWrapper::setBypass` (lines 462-465). -/
def setBypass {σ : Type} (w : Wrapper σ) (b : Bool) : Wrapper σ :=
  { w with bypass := b }

/-- `CLAPWrapper::sendMIDI` (lines 468-510). -/
def sendMIDI {σ : Type} (w : Wrapper σ) (status data1 data2 : Int) :
    Bool × Wrapper σ :=
  if w.plugin.isNone ∨ w.processing = false ∨ w.isInstrument = false then
    (false, w)
  else
    let channel : Int := midiChannel status
    let messageType : Int := midiMessageType status
    let noteEvent : NoteEvent :=
      { etype := 0, time := 0, noteId := -1, portIndex := 0,
        channel := channel, key := int16ofInt data1,
        velocity := mkRat data2 127 }
    if messageType = 0x90 then
      (true, { w with eventQueue := w.eventQueue ++
        [QueuedEvent.note { noteEvent with etype := CLAP_EVENT_NOTE_ON }] })
    else if messageType = 0x80 then
      (true, { w with eventQueue := w.eventQueue ++
        [QueuedEvent.note { noteEvent with etype := CLAP_EVENT_NOTE_OFF }] })
    else if messageType = 0xB0 ∨ messageType = 0xC0 then
      (true, w)
    else
      (false, w)

/-- `CLAPWrapper::noteOn` (lines 512-515). -/
def noteOn {σ : Type} (w : Wrapper σ) (pitch velocity : Int) : Bool × Wrapper σ :=
  sendMIDI w 0x90 pitch velocity

/-- `CLAPWrapper::noteOff` (lines 517-520). -/
def noteOff {σ : Type} (w : Wrapper σ) (pitch : Int) : Bool × Wrapper σ :=
  sendMIDI w 0x80 pitch 0

/-- `CLAPWrapper::close` (lines 298-337) followed by the
`cleanupPresetDiscovery` it calls (lines 742-752): stop, deactivate,
destroy, deinit, unload (each guarded), then clear the cached parameter
list, the instrument flag, all extension pointers, and the preset
discovery state.  `m_bypass`, `m_eventQueue`, `m_process.steady_time` and
the `errorLogged` static are not touched by `close`. -/
def close {σ : Type} (w : Wrapper σ) : Wrapper σ :=
  { w with plugin := none
           processing := false
           activated := false
           entry := false
           library := false
           parameters := []
           isInstrument := false
           params := false
           audioPortsExt := false
           notePortsExt := false
           presetLoad := false
           presetDiscoveryProvider := false
           presetDiscoveryFactory := false
           presets := []
           discoveryLocations := [] }

/-- `CLAPWrapper::getParameterCount` (lines 457-460). -/
def getParameterCount {σ : Type} (w : Wrapper σ) : Int :=
  (w.parameters.length : Int)

/-- `CLAPWrapper::getPresetCount` (lines 528-531). -/
def getPresetCount {σ : Type} (w : Wrapper σ) : Int :=
  (w.presets.length : Int)

/-- The first plugin descriptor of a module's factory
(`get_plugin_descriptor(factory, 0)`): the plugin id and the
null-terminated feature-tag array (`none` models a null `features`
pointer). -/
structure PluginDescriptor where
  id : String
  features : Option (List String)
deriving Repr

/-- A preset-discovery provider exposed by a module's discovery factory:
whether `create` and `init` succeed, the locations it declares through the
indexer's `declare_location` callback while being created and initialised,
and the presets its `get_metadata` call declares (name, load key) for a
given location kind and path. -/
structure ProviderDef where
  createOk : Bool
  initOk : Bool
  locations : List DiscoveryLocation
  metadata : Nat → String → List (String × String)

/-- The behaviour of a dynamically loaded CLAP module, as observed through
the calls `CLAPWrapper::load` makes: one field per lifecycle call that can
fail, plus the data the module hands back.  `paramInfos` models
`params->count` (its length) and `params->get_info` per index (`none` for
a failing `get_info`). -/
structure ModuleDef (σ : Type) where
  dlopenOk : Bool
  hasEntrySymbol : Bool
  entryInitOk : Bool
  hasPluginFactory : Bool
  pluginCount : Nat
  descriptor0 : Option PluginDescriptor
  createPlugin : Option σ
  pluginInit : σ → Bool × σ
  hasParamsExt : Bool
  hasAudioPortsExt : Bool
  hasNotePortsExt : Bool
  hasPresetLoadExt : Bool
  paramInfos : List (Option ParameterInfo)
  presetProviders : Option (List ProviderDef)
  activateOk : Bool
  startProcessingOk : Bool

/-- Does the descriptor's feature array carry an instrument or synthesizer
tag (`CLAPWrapper::load`, lines 214-226)?  A null `features` pointer skips
the scan. -/
def descIsInstrument (desc : PluginDescriptor) : Bool :=
  match desc.features with
  | none => false
  | some fs => fs.any (fun f =>
      f = CLAP_PLUGIN_FEATURE_INSTRUMENT || f = CLAP_PLUGIN_FEATURE_SYNTHESIZER)

/-- `CLAPWrapper::cacheParameters` (lines 633-652): clear the cache, then,
with the params extension present, collect the per-index infos whose
`get_info` succeeded, in index order. -/
def cacheParameters {σ : Type} (m : ModuleDef σ) (w : Wrapper σ) : Wrapper σ :=
  let w := { w with parameters := [] }
  if w.params = false then w
  else { w with parameters := m.paramInfos.filterMap id }

/-- `CLAPWrapper::discoverPresets` (lines 754-781): crawl every declared
location with the provider's `get_metadata`; each `begin_preset` callback
appends a preset tagged with the location currently being crawled. -/
def crawlLocations (p : ProviderDef) (locs : List DiscoveryLocation) :
    List PresetInfo :=
  locs.foldl (fun acc loc =>
    acc ++ (p.metadata loc.kind loc.location).map (fun nk =>
      { name := nk.1, location := loc.location, load_key := nk.2,
        location_kind := loc.kind })) []

/-- The provider loop of `CLAPWrapper::initPresetDiscovery` (lines
713-739): the first provider that is created and initialised successfully
crawls the declared locations; a provider that fails `init` is destroyed
and the loop continues. -/
def tryProviders {σ : Type} (w : Wrapper σ) : List ProviderDef → Wrapper σ
  | [] => w
  | p :: rest =>
    if p.createOk then
      let w := { w with presetDiscoveryProvider := true
                        discoveryLocations := w.discoveryLocations ++ p.locations }
      if p.initOk then
        { w with presets := w.presets ++ crawlLocations p w.discoveryLocations }
      else
        tryProviders { w with presetDiscoveryProvider := false } rest
    else
      tryProviders w rest

/-- `CLAPWrapper::initPresetDiscovery` (lines 677-740).  Failure anywhere
here is non-fatal to `load`. -/
def initPresetDiscovery {σ : Type} (m : ModuleDef σ) (w : Wrapper σ) : Wrapper σ :=
  if w.entry = false then w
  else
    match m.presetProviders with
    | none => w
    | some provs =>
      let w := { w with presetDiscoveryFactory := true }
      if m.hasPluginFactory = false then w
      else
        match m.descriptor0 with
        | none => w
        | some _ => tryProviders w provs

/-- `CLAPWrapper::load` (lines 145-296), step by step with the exact
cleanup each failure path performs.  Note that the failure paths after
the feature scan do not reset `m_isInstrument`, and the paths after
extension querying do not reset the extension pointers, the cached
parameter list or the discovered presets. -/
def load {σ : Type} (m : ModuleDef σ) (w0 : Wrapper σ) : Bool × Wrapper σ :=
  let w := close w0
  if m.dlopenOk = false then (false, w)
  else
  let w := { w with library := true }
  if m.hasEntrySymbol = false then (false, { w with library := false })
  else
  let w := { w with entry := true }
  if m.entryInitOk = false then (false, { w with library := false, entry := false })
  else
  if m.hasPluginFactory = false then (false, { w with library := false, entry := false })
  else
  if m.pluginCount = 0 then (false, { w with library := false, entry := false })
  else
  match m.descriptor0 with
  | none => (false, { w with library := false, entry := false })
  | some desc =>
    let w := { w with isInstrument := w.isInstrument || descIsInstrument desc }
    match m.createPlugin with
    | none => (false, { w with library := false, entry := false })
    | some p0 =>
      let r := m.pluginInit p0
      if r.1 = false then (false, { w with library := false, entry := false })
      else
      let w := { w with plugin := some r.2
                        params := m.hasParamsExt
                        audioPortsExt := m.hasAudioPortsExt
                        notePortsExt := m.hasNotePortsExt
                        presetLoad := m.hasPresetLoadExt }
      let w := cacheParameters m w
      let w := initPresetDiscovery m w
      if m.activateOk = false then
        (false, { w with plugin := none, library := false, entry := false })
      else
      let w := { w with activated := true }
      if m.startProcessingOk = false then
        (false, { w with activated := false, plugin := none,
                         library := false, entry := false })
      else
      (true, { w with processing := true })

/-! ### The bundled example plugin (`src/CLAP/example-plugin/plugin.cpp`)

The parameter-handling fragment of `MyPlugin`: `P_COUNT = 1`, so the
per-parameter arrays collapse to single fields.  Voice bookkeeping and the
sine rendering are outside the claims (no note events are sent in the
scenarios proved below, so the rendered output is the empty sum, `0`). -/

/-- The parameter state of `MyPlugin`: `parameters[P_VOLUME]`,
`mainParameters[P_VOLUME]` and the two dirty flags. -/
structure MyPluginState where
  parameters : Rat
  mainParameters : Rat
  changed : Bool
  mainChanged : Bool
deriving Repr, DecidableEq

/-- `PluginSyncMainToAudio` (plugin.cpp lines 152-178): copy a pending
main-thread value into the audio-side parameter and clear the flag.  (The
output event it pushes goes to the wrapper's `try_push`, which discards
it.) -/
def myPluginSyncMainToAudio (s : MyPluginState) : MyPluginState :=
  if s.mainChanged then
    { s with parameters := s.mainParameters, mainChanged := false }
  else s

/-- `PluginProcessEvent` (plugin.cpp lines 79-132), restricted to the
`CLAP_EVENT_PARAM_VALUE` branch; the only in-contract parameter id is 0
(`P_COUNT = 1`; the source indexes `parameters[param_id]` unchecked, so
any other id is out of contract).  Note events only touch the voice lists,
which are outside the modelled fragment. -/
def myPluginProcessEvent (s : MyPluginState) (e : QueuedEvent) : MyPluginState :=
  match e with
  | .param pe =>
    if pe.paramId = 0 then { s with parameters := pe.value, changed := true }
    else s
  | .note _ => s

/-- `pluginClass.process` (plugin.cpp lines 363-419) at
`frames_count = 1`: sync main to audio, then apply, in order, the leading
run of events stamped for frame 0 (an event stamped later than the block
length is left unprocessed by the source's frame loop), and return
`CLAP_PROCESS_CONTINUE`.  The rendered output with no live voices is 0. -/
def myPluginProcess (s : MyPluginState) (_input : Rat)
    (events : List QueuedEvent) (_steadyTime : Nat) : ProcResult MyPluginState :=
  let s := myPluginSyncMainToAudio s
  let s := (events.takeWhile (fun e => e.time = 0)).foldl myPluginProcessEvent s
  { state := s, status := CLAP_PROCESS_CONTINUE, outL := 0, outR := 0 }

/-- `extensionParams.get_value` (plugin.cpp lines 267-275): fails for an
id out of `P_COUNT`; otherwise the pending main-thread value if one is
queued, else the live audio-side value. -/
def myPluginGetValue (s : MyPluginState) (id : Nat) : Option Rat :=
  if id = 0 then
    some (if s.mainChanged then s.mainParameters else s.parameters)
  else none

/-- The example plugin's entry points as a `PluginOracle`. -/
def myPluginOracle : PluginOracle MyPluginState where
  process := myPluginProcess
  getValue := myPluginGetValue

/-- `pluginClass.init` (plugin.cpp lines 321-333): both parameter copies
take the descriptor default `0.5`. -/
def myPluginInit (s : MyPluginState) : Bool × MyPluginState :=
  (true, { s with parameters := mkRat 1 2, mainParameters := mkRat 1 2 })

/-- The example plugin's state right after `init`: both parameter copies
hold the default `0.5`, no dirty flags. -/
def myPluginDefaultState : MyPluginState where
  parameters := mkRat 1 2
  mainParameters := mkRat 1 2
  changed := false
  mainChanged := false

/-- The example plugin module as `CLAPWrapper::load` observes it:
`clap_entry` with trivially succeeding `init`, one plugin whose
descriptor carries the instrument/synthesizer/stereo features, params /
audio-ports / note-ports extensions, one parameter `Volume` with id 0, no
preset-discovery factory, and trivially succeeding activate /
start_processing.  `create_plugin` zero-initialises the state (`calloc`). -/
def exampleModule : ModuleDef MyPluginState where
  dlopenOk := true
  hasEntrySymbol := true
  entryInitOk := true
  hasPluginFactory := true
  pluginCount := 1
  descriptor0 := some { id := "nakst.HelloCLAP",
                        features := some ["instrument", "synthesizer", "stereo"] }
  createPlugin := some { parameters := 0, mainParameters := 0,
                         changed := false, mainChanged := false }
  pluginInit := myPluginInit
  hasParamsExt := true
  hasAudioPortsExt := true
  hasNotePortsExt := true
  hasPresetLoadExt := false
  paramInfos := [some { id := 0, name := "Volume" }]
  presetProviders := none
  activateOk := true
  startProcessingOk := true

/-- The wrapper state after successfully loading the example plugin. -/
def exampleLoaded : Wrapper MyPluginState :=
  (load exampleModule (initWrapper MyPluginState 44100)).2

/-! ### Concrete modules exercising the load failure paths -/

/-- A module whose descriptor declares the instrument feature but whose
`create_plugin` returns null: `load` fails after the feature scan has
already set `m_isInstrument`. -/
def instrCreateFailModule : ModuleDef Unit where
  dlopenOk := true
  hasEntrySymbol := true
  entryInitOk := true
  hasPluginFactory := true
  pluginCount := 1
  descriptor0 := some { id := "test.instrument", features := some ["instrument"] }
  createPlugin := none
  pluginInit := fun p => (true, p)
  hasParamsExt := false
  hasAudioPortsExt := false
  hasNotePortsExt := false
  hasPresetLoadExt := false
  paramInfos := []
  presetProviders := none
  activateOk := true
  startProcessingOk := true

/-- A module that reaches parameter caching and preset discovery (one
parameter, one declared location with one preset) but whose `activate`
fails: `load` fails after the caches were populated. -/
def activateFailModule : ModuleDef Unit where
  dlopenOk := true
  hasEntrySymbol := true
  entryInitOk := true
  hasPluginFactory := true
  pluginCount := 1
  descriptor0 := some { id := "test.effect", features := some ["audio-effect"] }
  createPlugin := some ()
  pluginInit := fun p => (true, p)
  hasParamsExt := true
  hasAudioPortsExt := true
  hasNotePortsExt := false
  hasPresetLoadExt := true
  paramInfos := [some { id := 7, name := "Gain" }]
  presetProviders := some
    [{ createOk := true, initOk := true,
       locations := [{ name := "factory", location := "/presets", kind := 1,
                       flags := 0 }],
       metadata := fun _ _ => [("Warm", "warm-key")] }]
  activateOk := false
  startProcessingOk := true

/-- A well-behaved trivial effect module used to show a subsequent `load`
succeeds. -/
def goodModule : ModuleDef Unit where
  dlopenOk := true
  hasEntrySymbol := true
  entryInitOk := true
  hasPluginFactory := true
  pluginCount := 1
  descriptor0 := some { id := "test.good", features := some ["audio-effect"] }
  createPlugin := some ()
  pluginInit := fun p => (true, p)
  hasParamsExt := false
  hasAudioPortsExt := false
  hasNotePortsExt := false
  hasPresetLoadExt := false
  paramInfos := []
  presetProviders := none
  activateOk := true
  startProcessingOk := true

/-- A trivial oracle for plugin-free scenarios. -/
def unitOracle : PluginOracle Unit where
  process := fun s _ _ _ => { state := s, status := CLAP_PROCESS_CONTINUE,
                              outL := 0, outR := 0 }
  getValue := fun _ _ => none

/-- An oracle whose process call always fails with `CLAP_PROCESS_ERROR`. -/
def errorOracle : PluginOracle Unit where
  process := fun s _ _ _ => { state := s, status := CLAP_PROCESS_ERROR,
                              outL := 0, outR := 0 }
  getValue := fun _ _ => none

/-- Iterated `tick`: thread the wrapper state through a list of input
samples, collecting each call's output sample and whether it logged the
processing-error diagnostic. -/
def tickTrace {σ : Type} (o : PluginOracle σ) :
    Wrapper σ → List Rat → Wrapper σ × List (Rat × Bool)
  | w, [] => (w, [])
  | w, x :: xs =>
    let r := tick o w x
    let t := tickTrace o r.state xs
    (t.1, (r.out, r.logged) :: t.2)

/-- The wrapper state after successfully loading the trivial effect
module. -/
def goodLoaded : Wrapper Unit :=
  (load goodModule (initWrapper Unit 44100)).2

/-- A wrapper with the example plugin loaded, bypass enabled, and two
parameter changes queued while bypassed. -/
def bypassBacklogState : Wrapper MyPluginState :=
  (setParameter
    (setParameter (setBypass exampleLoaded true) 0 (mkRat 7 10)).2
    0 (mkRat 3 10)).2


/-! ### Helper lemmas -/

theorem range_filterMap_get {α : Type _} : ∀ (l : List α),
    (List.range l.length).filterMap (fun i => l.get? i) = l := by
  intro l
  induction l with
  | nil => rfl
  | cons a l ih =>
    rw [List.length_cons, List.range_succ_eq_map, List.filterMap_cons]
    simp only [List.get?_cons_zero]
    rw [List.filterMap_map]
    have h : ((fun i => (a :: l).get? i) ∘ Nat.succ) = fun i => l.get? i := by
      funext i
      simp [Function.comp, List.get?_cons_succ]
    rw [h, ih]

theorem event_list_get_eq {σ : Type} (w : Wrapper σ) (i : Nat) :
    event_list_get w i = w.eventQueue.get? i := by
  unfold event_list_get
  split
  · next h => exact (List.get?_eq_none.mpr h).symm
  · rfl

theorem inputEventList_eq {σ : Type} (w : Wrapper σ) :
    inputEventList w = w.eventQueue := by
  unfold inputEventList event_list_size
  have h : event_list_get w = fun i => w.eventQueue.get? i :=
    funext (event_list_get_eq w)
  rw [h, range_filterMap_get]

theorem scanForName_eq_none (name : String) :
    ∀ (l : List ParameterInfo), (∀ p ∈ l, p.name ≠ name) →
    scanForName name l = none := by
  intro l
  induction l with
  | nil => intro _; rfl
  | cons a l ih =>
    intro h
    have ha : ¬ a.name = name := h a (List.mem_cons_self a l)
    have ht : scanForName name l = none :=
      ih (fun p hp => h p (List.mem_cons_of_mem a hp))
    simp [scanForName, ha, ht]

theorem int16ofInt_eq_self (x : Int) (h0 : 0 ≤ x) (h1 : x < 128) :
    int16ofInt x = x := by
  unfold int16ofInt
  omega

theorem tick_inactive {σ : Type} (o : PluginOracle σ) (w : Wrapper σ) (x : Rat)
    (h : w.plugin = none ∨ w.processing = false ∨ w.bypass = true) :
    tick o w x = { out := x, state := w, delivered := [], logged := false } := by
  cases hp : w.plugin with
  | none => simp [tick, hp]
  | some p =>
    rcases h with h | h | h
    · rw [hp] at h; cases h
    · simp [tick, hp, h]
    · simp [tick, hp, h]

theorem tick_active {σ : Type} (o : PluginOracle σ) (w : Wrapper σ) (x : Rat)
    (p : σ) (hp : w.plugin = some p) (hproc : w.processing = true)
    (hbyp : w.bypass = false) :
    tick o w x =
      { out := if (o.process p x (inputEventList w) w.steadyTime).status
                 = CLAP_PROCESS_ERROR then
                 (if w.isInstrument then 0 else x)
               else (o.process p x (inputEventList w) w.steadyTime).outL
        state := { w with
          plugin := some (o.process p x (inputEventList w) w.steadyTime).state
          eventQueue := []
          steadyTime := w.steadyTime + 1
          errorLogged := w.errorLogged ||
            decide ((o.process p x (inputEventList w) w.steadyTime).status
              = CLAP_PROCESS_ERROR) }
        delivered := inputEventList w
        logged := decide ((o.process p x (inputEventList w) w.steadyTime).status
            = CLAP_PROCESS_ERROR) && !w.errorLogged } := by
  simp [tick, hp, hproc, hbyp]

theorem setParameter_fail {σ : Type} (w : Wrapper σ) (index : Int) (value : Rat)
    (h : w.params = false ∨ index < 0 ∨ (w.parameters.length : Int) ≤ index) :
    setParameter w index value = (false, w) := by
  unfold setParameter
  rw [if_pos h]

theorem setParameter_ok {σ : Type} (w : Wrapper σ) (index : Int) (value : Rat)
    (hparams : w.params = true) (h0 : 0 ≤ index)
    (hlen : index < (w.parameters.length : Int)) :
    ∃ info, w.parameters.get? index.toNat = some info ∧
      setParameter w index value = (true, { w with eventQueue := w.eventQueue ++
        [QueuedEvent.param { time := 0, paramId := info.id, noteId := -1,
                             portIndex := -1, channel := -1, key := -1,
                             value := value }] }) := by
  have hlt : index.toNat < w.parameters.length := by omega
  have hcond : ¬ (w.params = false ∨ index < 0 ∨
      (w.parameters.length : Int) ≤ index) := by
    simp [hparams]
    omega
  refine ⟨w.parameters.get ⟨index.toNat, hlt⟩, List.get?_eq_get hlt, ?_⟩
  unfold setParameter
  rw [if_neg hcond, List.get?_eq_get hlt]

/-- C2: `tick(x) = x` whenever no plugin instance is loaded, the instance
is not in the Processing state, or bypass is enabled; in particular tick
is the identity before any successful `load()` and with bypass enabled
regardless of plugin presence. -/
theorem tick_identity_when_inactive {σ : Type} (o : PluginOracle σ)
    (w : Wrapper σ) (x : Rat)
    (h : w.plugin = none ∨ w.processing = false ∨ w.bypass = true) :
    (tick o w x).out = x := by
  rw [tick_inactive o w x h]

/-- Witness for C2: the freshly constructed wrapper (no plugin yet) passes
`3` through unchanged, and the loaded-then-bypassed example plugin passes
`5` through unchanged. -/
theorem tick_identity_when_inactive_witness :
    (tick unitOracle (initWrapper Unit 44100) 3).out = 3
    ∧ (tick myPluginOracle (setBypass exampleLoaded true) 5).out = 5 :=
  ⟨tick_identity_when_inactive unitOracle (initWrapper Unit 44100) 3
     (Or.inl rfl),
   tick_identity_when_inactive myPluginOracle (setBypass exampleLoaded true) 5
     (Or.inr (Or.inr rfl))⟩

/-- C5: `setParameter(index, value)` fails and leaves the queue unchanged
for an out-of-range index or without the parameter capability; otherwise
it succeeds and appends exactly one param-value event stamped time 0,
carrying the cached real parameter id for that index, with the note, port,
channel and key fields set to the sentinel `-1`. -/
theorem setParameter_contract {σ : Type} (w : Wrapper σ) (index : Int)
    (value : Rat) :
    ((w.params = false ∨ index < 0 ∨ (w.parameters.length : Int) ≤ index) →
       setParameter w index value = (false, w))
    ∧ (w.params = true → 0 ≤ index → index < (w.parameters.length : Int) →
       ∃ info, w.parameters.get? index.toNat = some info ∧
         setParameter w index value = (true, { w with eventQueue :=
           w.eventQueue ++
           [QueuedEvent.param { time := 0, paramId := info.id, noteId := -1,
                                portIndex := -1, channel := -1, key := -1,
                                value := value }] })) :=
  ⟨setParameter_fail w index value,
   fun hparams h0 hlen => setParameter_ok w index value hparams h0 hlen⟩

/-- Witness for C5: on the loaded example plugin, index `0` succeeds and
appends the param-value event for id 0, while index `5` (out of range) and
index `-1` fail without touching the state. -/
theorem setParameter_contract_witness :
    (setParameter exampleLoaded 0 (mkRat 7 10)).1 = true
    ∧ setParameter exampleLoaded 5 (mkRat 7 10) = (false, exampleLoaded)
    ∧ setParameter exampleLoaded (-1) (mkRat 7 10) = (false, exampleLoaded) := by
  refine ⟨?_, ?_, ?_⟩
  · obtain ⟨info, _, heq⟩ :=
      (setParameter_contract exampleLoaded 0 (mkRat 7 10)).2
        (by decide) (by decide) (by decide)
    rw [heq]
  · exact (setParameter_contract exampleLoaded 5 (mkRat 7 10)).1
      (by right; right; decide)
  · exact (setParameter_contract exampleLoaded (-1) (mkRat 7 10)).1
      (by right; left; decide)

/-- C8: on a non-bypassed tick with a loaded, processing plugin, the
input-event list exposed to the process call is exactly the queued events
in order (`size` = queue length, indexed access), the queue is cleared
afterwards, and steady time advances by exactly one, for every plugin
oracle and hence regardless of the returned process status. -/
theorem tick_consumes_events_once {σ : Type} (o : PluginOracle σ)
    (w : Wrapper σ) (x : Rat) (p : σ)
    (hp : w.plugin = some p) (hproc : w.processing = true)
    (hbyp : w.bypass = false) :
    event_list_size w = w.eventQueue.length
    ∧ (∀ i, event_list_get w i = w.eventQueue.get? i)
    ∧ (tick o w x).delivered = w.eventQueue
    ∧ (tick o w x).state.eventQueue = []
    ∧ (tick o w x).state.steadyTime = w.steadyTime + 1 := by
  have ht := tick_active o w x p hp hproc hbyp
  refine ⟨rfl, event_list_get_eq w, ?_, ?_, ?_⟩
  · rw [ht]
    exact inputEventList_eq w
  · rw [ht]
  · rw [ht]

/-- Witness for C8: after queueing one parameter change on the loaded
example plugin, the next tick delivers exactly that one event, clears the
queue and advances steady time from 0 to 1. -/
theorem tick_consumes_events_once_witness :
    (tick myPluginOracle (setParameter exampleLoaded 0 (mkRat 7 10)).2 0).delivered
      = (setParameter exampleLoaded 0 (mkRat 7 10)).2.eventQueue
    ∧ (tick myPluginOracle (setParameter exampleLoaded 0 (mkRat 7 10)).2 0).state.eventQueue
      = []
    ∧ (tick myPluginOracle (setParameter exampleLoaded 0 (mkRat 7 10)).2 0).state.steadyTime
      = (setParameter exampleLoaded 0 (mkRat 7 10)).2.steadyTime + 1 := by
  have h := tick_consumes_events_once myPluginOracle
    (setParameter exampleLoaded 0 (mkRat 7 10)).2 0
    myPluginDefaultState
    (by decide) (by decide) (by decide)
  exact ⟨h.2.2.1, h.2.2.2.1, h.2.2.2.2⟩

/-- C9: `close` is idempotent and total: a second `close` is a no-op, and
after any `close` the parameter and preset counts are zero, the instrument
flag is false, and every plugin, module and extension handle is cleared. -/
theorem close_idempotent_total {σ : Type} (w : Wrapper σ) :
    close (close w) = close w
    ∧ getParameterCount (close w) = 0
    ∧ getPresetCount (close w) = 0
    ∧ (close w).isInstrument = false
    ∧ (close w).plugin = none
    ∧ (close w).library = false
    ∧ (close w).entry = false
    ∧ (close w).params = false
    ∧ (close w).audioPortsExt = false
    ∧ (close w).notePortsExt = false
    ∧ (close w).presetLoad = false
    ∧ (close w).presetDiscoveryFactory = false
    ∧ (close w).presetDiscoveryProvider = false :=
  ⟨rfl, rfl, rfl, rfl, rfl, rfl, rfl, rfl, rfl, rfl, rfl, rfl, rfl⟩

/-- C7: for a name matching no cached parameter (case-sensitive, exact),
`setParameterByName` fails leaving the state untouched and
`getParameterByName` returns `0.0` with the found-flag false; for a
matching name both delegate to the index-based operation at the first
exact match. -/
theorem byName_unknown_and_delegation {σ : Type} (o : PluginOracle σ)
    (w : Wrapper σ) (name : String) (value : Rat) :
    ((∀ p ∈ w.parameters, p.name ≠ name) →
       setParameterByName w name value = (false, w)
       ∧ getParameterByName o w name = (0, false))
    ∧ (∀ i : Nat, w.params = true →
       scanForName name w.parameters = some i →
       setParameterByName w name value = setParameter w (i : Int) value
       ∧ getParameterByName o w name = (getParameter o w (i : Int), true)) := by
  constructor
  · intro h
    have hs := scanForName_eq_none name w.parameters h
    by_cases hP : w.params = false
    · constructor
      · simp [setParameterByName, hP]
      · simp [getParameterByName, hP]
    · constructor
      · simp [setParameterByName, hP, hs]
      · simp [getParameterByName, hP, hs]
  · intro i hparams hscan
    constructor
    · simp [setParameterByName, hparams, hscan]
    · simp [getParameterByName, hparams, hscan]

/-- Witness for C7: on the loaded example plugin, the unknown name
"doesNotExist" fails both ways while the cached name "Volume" delegates to
index 0. -/
theorem byName_unknown_and_delegation_witness :
    setParameterByName exampleLoaded "doesNotExist" 1 = (false, exampleLoaded)
    ∧ getParameterByName myPluginOracle exampleLoaded "doesNotExist" = (0, false)
    ∧ setParameterByName exampleLoaded "Volume" (mkRat 7 10)
        = setParameter exampleLoaded ((0 : Nat) : Int) (mkRat 7 10)
    ∧ getParameterByName myPluginOracle exampleLoaded "Volume"
        = (getParameter myPluginOracle exampleLoaded ((0 : Nat) : Int), true) := by
  obtain ⟨h1, h2⟩ :=
    (byName_unknown_and_delegation myPluginOracle exampleLoaded "doesNotExist" 1).1
      (by decide)
  obtain ⟨h3, h4⟩ :=
    (byName_unknown_and_delegation myPluginOracle exampleLoaded "Volume"
      (mkRat 7 10)).2 0 (by decide) (by decide)
  exact ⟨h1, h2, h3, h4⟩

/-- C4: `sendMIDI` fails leaving the queue untouched unless an instrument
is loaded and processing; given that, for data bytes `data1`, `data2`, a
status with high nibble `0x90`/`0x80` enqueues a note-on/note-off event at
time 0 with channel = `status & 0x0F`, key = `data1` and velocity =
`data2 / 127`, returning true; high nibbles `0xB0` and `0xC0` return true
without enqueuing; any other status fails. -/
theorem sendMIDI_contract {σ : Type} (w : Wrapper σ) (status data1 data2 : Int) :
    ((w.plugin = none ∨ w.processing = false ∨ w.isInstrument = false) →
       sendMIDI w status data1 data2 = (false, w))
    ∧ (∀ p : σ, w.plugin = some p → w.processing = true → w.isInstrument = true →
       0 ≤ data1 → data1 < 128 →
       (midiMessageType status = 0x90 →
          sendMIDI w status data1 data2 = (true, { w with eventQueue :=
            w.eventQueue ++
            [QueuedEvent.note { etype := CLAP_EVENT_NOTE_ON, time := 0,
                                noteId := -1, portIndex := 0,
                                channel := midiChannel status, key := data1,
                                velocity := mkRat data2 127 }] }))
       ∧ (midiMessageType status = 0x80 →
          sendMIDI w status data1 data2 = (true, { w with eventQueue :=
            w.eventQueue ++
            [QueuedEvent.note { etype := CLAP_EVENT_NOTE_OFF, time := 0,
                                noteId := -1, portIndex := 0,
                                channel := midiChannel status, key := data1,
                                velocity := mkRat data2 127 }] }))
       ∧ (midiMessageType status = 0xB0 ∨ midiMessageType status = 0xC0 →
          sendMIDI w status data1 data2 = (true, w))
       ∧ (midiMessageType status ≠ 0x90 → midiMessageType status ≠ 0x80 →
          midiMessageType status ≠ 0xB0 → midiMessageType status ≠ 0xC0 →
          sendMIDI w status data1 data2 = (false, w))) := by
  constructor
  · intro h
    have hguard : w.plugin.isNone = true ∨ w.processing = false
        ∨ w.isInstrument = false := by
      rcases h with h | h | h
      · left; rw [h]; rfl
      · right; left; exact h
      · right; right; exact h
    unfold sendMIDI
    rw [if_pos]
    exact_mod_cast hguard
  · intro p hp hproc hinstr h0 h1
    have hkey : int16ofInt data1 = data1 := int16ofInt_eq_self data1 h0 h1
    refine ⟨?_, ?_, ?_, ?_⟩
    · intro hmsg
      simp [sendMIDI, hp, hproc, hinstr, hmsg, hkey]
    · intro hmsg
      simp [sendMIDI, hp, hproc, hinstr, hmsg, hkey]
    · rintro (hmsg | hmsg) <;>
        simp [sendMIDI, hp, hproc, hinstr, hmsg]
    · intro h90 h80 hB0 hC0
      simp [sendMIDI, hp, hproc, hinstr, h90, h80, hB0, hC0]

/-- Witness for C4: on the loaded example plugin (an instrument in the
Processing state), note-on `0x92 60 100` succeeds, control-change `0xB3`
succeeds without enqueuing, status `0x45` fails, and on the fresh wrapper
any `sendMIDI` fails. -/
theorem sendMIDI_contract_witness :
    (sendMIDI exampleLoaded 0x92 60 100).1 = true
    ∧ sendMIDI exampleLoaded 0xB3 1 2 = (true, exampleLoaded)
    ∧ sendMIDI exampleLoaded 0x45 60 100 = (false, exampleLoaded)
    ∧ sendMIDI (initWrapper MyPluginState 44100) 0x90 60 100
        = (false, initWrapper MyPluginState 44100) := by
  have hall := sendMIDI_contract exampleLoaded 0x92 60 100
  refine ⟨?_, ?_, ?_, ?_⟩
  · have h := (hall.2 myPluginDefaultState
      (by decide) (by decide) (by decide) (by decide) (by decide)).1 (by decide)
    rw [h]
  · exact ((sendMIDI_contract exampleLoaded 0xB3 1 2).2
      myPluginDefaultState
      (by decide) (by decide) (by decide) (by decide) (by decide)).2.2.1
      (Or.inl (by decide))
  · exact ((sendMIDI_contract exampleLoaded 0x45 60 100).2
      myPluginDefaultState
      (by decide) (by decide) (by decide) (by decide) (by decide)).2.2.2
      (by decide) (by decide) (by decide) (by decide)
  · exact (sendMIDI_contract (initWrapper MyPluginState 44100) 0x90 60 100).1
      (Or.inl rfl)

/-- C3: on the loaded example plugin (one parameter, default `0.5`),
`setParam(0, 0.7)` succeeds; `getParam(0)` before any tick still returns
the previous value `0.5` (getParameter queries the plugin synchronously
and never reads the pending-event queue, which still holds the change);
after exactly one `tick()` the queued change has been delivered to the
process call and `getParam(0)` returns `0.7` exactly. -/
theorem param_round_trip_example_plugin :
    (load exampleModule (initWrapper MyPluginState 44100)).1 = true
    ∧ (setParameter exampleLoaded 0 (mkRat 7 10)).1 = true
    ∧ getParameter myPluginOracle (setParameter exampleLoaded 0 (mkRat 7 10)).2 0
        = mkRat 1 2
    ∧ (setParameter exampleLoaded 0 (mkRat 7 10)).2.eventQueue.length = 1
    ∧ getParameter myPluginOracle
        (tick myPluginOracle (setParameter exampleLoaded 0 (mkRat 7 10)).2 0).state 0
        = mkRat 7 10 :=
  ⟨by decide, by decide, by decide, by decide, by decide⟩

/-- C1 (evaluating the code at the failing inputs): `load` on a module
whose descriptor declares the instrument feature but whose
`create_plugin` fails returns false yet leaves `isInstrument() = true`;
`load` on a module that fails at `activate` (after parameter caching and
preset discovery) returns false yet leaves `paramCount() = 1`,
`presetCount() = 1` and a stale params-extension handle.  The module and
instance handles are cleared on every failure path, and a subsequent
`load` of a valid module succeeds (because `load` begins with `close`). -/
theorem load_failure_leaves_stale_state :
    ((load instrCreateFailModule (initWrapper Unit 44100)).1 = false
      ∧ (load instrCreateFailModule (initWrapper Unit 44100)).2.plugin = none
      ∧ (load instrCreateFailModule (initWrapper Unit 44100)).2.library = false
      ∧ (load instrCreateFailModule (initWrapper Unit 44100)).2.entry = false
      ∧ (load instrCreateFailModule (initWrapper Unit 44100)).2.isInstrument = true)
    ∧ ((load activateFailModule (initWrapper Unit 44100)).1 = false
      ∧ (load activateFailModule (initWrapper Unit 44100)).2.plugin = none
      ∧ getParameterCount (load activateFailModule (initWrapper Unit 44100)).2 = 1
      ∧ getPresetCount (load activateFailModule (initWrapper Unit 44100)).2 = 1
      ∧ (load activateFailModule (initWrapper Unit 44100)).2.params = true)
    ∧ (load goodModule (load instrCreateFailModule (initWrapper Unit 44100)).2).1
        = true :=
  ⟨⟨by decide, by decide, by decide, by decide, by decide⟩,
   ⟨by decide, by decide, by decide, by decide, by decide⟩,
   by decide⟩

/-- C10: while the early-return guard holds (in particular with bypass
enabled), `tick` returns the input with the wrapper state — including the
pending-event queue and steady time — completely unchanged; `setParameter`
on a loaded plugin with the params capability still succeeds and appends
its event; and once bypass is switched off, the first tick delivers the
entire accumulated backlog in its single input-event list and clears it. -/
theorem bypass_retains_backlog {σ : Type} (o : PluginOracle σ)
    (w : Wrapper σ) (x : Rat) (index : Int) (value : Rat) :
    ((w.plugin = none ∨ w.processing = false ∨ w.bypass = true) →
       tick o w x = { out := x, state := w, delivered := [], logged := false })
    ∧ (w.params = true → 0 ≤ index → index < (w.parameters.length : Int) →
       (setParameter w index value).1 = true
       ∧ ∃ e, (setParameter w index value).2
           = { w with eventQueue := w.eventQueue ++ [e] })
    ∧ (∀ p : σ, w.plugin = some p → w.processing = true →
       (tick o (setBypass w false) x).delivered = w.eventQueue
       ∧ (tick o (setBypass w false) x).state.eventQueue = []) := by
  refine ⟨tick_inactive o w x, ?_, ?_⟩
  · intro hparams h0 hlen
    obtain ⟨info, _, heq⟩ := setParameter_ok w index value hparams h0 hlen
    rw [heq]
    exact ⟨rfl, _, rfl⟩
  · intro p hp hproc
    have ht := tick_active o (setBypass w false) x p hp hproc rfl
    constructor
    · rw [ht]
      exact inputEventList_eq (setBypass w false)
    · rw [ht]

/-- Witness for C10: with the example plugin loaded and bypassed, two
parameter changes are queued; a bypassed tick leaves the state (backlog
included) untouched, and the first non-bypassed tick delivers both queued
events at once. -/
theorem bypass_retains_backlog_witness :
    (tick myPluginOracle bypassBacklogState 1).state = bypassBacklogState
    ∧ (tick myPluginOracle bypassBacklogState 1).out = 1
    ∧ bypassBacklogState.eventQueue.length = 2
    ∧ (tick myPluginOracle (setBypass bypassBacklogState false) 1).delivered
        = bypassBacklogState.eventQueue
    ∧ (tick myPluginOracle (setBypass bypassBacklogState false) 1).state.eventQueue
        = [] := by
  have h1 := (bypass_retains_backlog myPluginOracle bypassBacklogState 1 0 0).1
    (Or.inr (Or.inr (by decide)))
  have h3 := (bypass_retains_backlog myPluginOracle bypassBacklogState 1 0 0).2.2
    myPluginDefaultState (by decide) (by decide)
  refine ⟨?_, ?_, by decide, h3.1, h3.2⟩
  · rw [h1]
  · rw [h1]

theorem tick_log_monotone {σ : Type} (o : PluginOracle σ) (w : Wrapper σ)
    (x : Rat) (h : w.errorLogged = true) :
    (tick o w x).state.errorLogged = true ∧ (tick o w x).logged = false := by
  cases hp : w.plugin with
  | none =>
    rw [tick_inactive o w x (Or.inl hp)]
    exact ⟨h, rfl⟩
  | some p =>
    by_cases hproc : w.processing = true
    · by_cases hbyp : w.bypass = false
      · rw [tick_active o w x p hp hproc hbyp]
        exact ⟨by simp [h], by simp [h]⟩
      · have hb : w.bypass = true := by
          revert hbyp; cases w.bypass <;> simp
        rw [tick_inactive o w x (Or.inr (Or.inr hb))]
        exact ⟨h, rfl⟩
    · have hpr : w.processing = false := by
        revert hproc; cases w.processing <;> simp
      rw [tick_inactive o w x (Or.inr (Or.inl hpr))]
      exact ⟨h, rfl⟩

theorem tickTrace_no_log {σ : Type} (o : PluginOracle σ) :
    ∀ (xs : List Rat) (w : Wrapper σ), w.errorLogged = true →
    ((tickTrace o w xs).2.countP (fun r => r.2)) = 0 := by
  intro xs
  induction xs with
  | nil =>
    intro w _
    simp [tickTrace]
  | cons x xs ih =>
    intro w h
    have hm := tick_log_monotone o w x h
    simp only [tickTrace]
    rw [List.countP_cons]
    have h0 := ih (tick o w x).state hm.1
    simp only [h0, hm.2]
    rfl

theorem tick_error_facts {σ : Type} (o : PluginOracle σ) (w : Wrapper σ)
    (x : Rat) (p : σ) (hp : w.plugin = some p) (hproc : w.processing = true)
    (hbyp : w.bypass = false)
    (herr : (o.process p x (inputEventList w) w.steadyTime).status
      = CLAP_PROCESS_ERROR) :
    (tick o w x).out = (if w.isInstrument then 0 else x)
    ∧ (tick o w x).state.plugin.isSome = true
    ∧ (tick o w x).state.processing = true
    ∧ (tick o w x).state.bypass = false
    ∧ (tick o w x).state.isInstrument = w.isInstrument
    ∧ (tick o w x).state.errorLogged = true := by
  rw [tick_active o w x p hp hproc hbyp]
  exact ⟨by simp [herr], rfl, hproc, hbyp, rfl, by simp [herr]⟩

/-- C6: under a plugin whose every process call fails with
`CLAP_PROCESS_ERROR`, every non-bypassed tick of a loaded, processing
adapter returns 0 for an instrument and the input sample otherwise, the
adapter stays loaded and in the Processing state after the whole run, and
the error diagnostic is emitted at most once across all ticks. -/
theorem process_error_degrades {σ : Type} (o : PluginOracle σ)
    (herr : ∀ p x evs t, (o.process p x evs t).status = CLAP_PROCESS_ERROR) :
    ∀ (xs : List Rat) (w : Wrapper σ),
    w.plugin.isSome = true → w.processing = true → w.bypass = false →
    ((tickTrace o w xs).2.map Prod.fst
        = xs.map (fun y => if w.isInstrument then 0 else y))
    ∧ (tickTrace o w xs).1.plugin.isSome = true
    ∧ (tickTrace o w xs).1.processing = true
    ∧ ((tickTrace o w xs).2.countP (fun r => r.2)) ≤ 1 := by
  intro xs
  induction xs with
  | nil =>
    intro w hp hproc _
    exact ⟨rfl, hp, hproc, by simp [tickTrace]⟩
  | cons x xs ih =>
    intro w hp hproc hbyp
    obtain ⟨p, hpl⟩ := Option.isSome_iff_exists.mp hp
    have hef := tick_error_facts o w x p hpl hproc hbyp
      (herr p x (inputEventList w) w.steadyTime)
    have ihr := ih (tick o w x).state hef.2.1 hef.2.2.1 hef.2.2.2.1
    have hcount := tickTrace_no_log o xs (tick o w x).state hef.2.2.2.2.2
    simp only [tickTrace]
    refine ⟨?_, ihr.2.1, ihr.2.2.1, ?_⟩
    · rw [List.map_cons, List.map_cons, hef.1, ihr.1, hef.2.2.2.2.1]
    · rw [List.countP_cons, hcount]
      split <;> omega

/-- Witness for C6: three ticks of the trivially loaded effect module
under the always-failing oracle pass their inputs through (effect
passthrough), leave the adapter processing, and log at most once. -/
theorem process_error_degrades_witness :
    ((tickTrace errorOracle goodLoaded [1, 2, 3]).2.map Prod.fst
        = [1, 2, 3].map (fun y => if goodLoaded.isInstrument then 0 else y))
    ∧ (tickTrace errorOracle goodLoaded [1, 2, 3]).1.processing = true
    ∧ ((tickTrace errorOracle goodLoaded [1, 2, 3]).2.countP (fun r => r.2)) ≤ 1 := by
  have h := process_error_degrades errorOracle (fun _ _ _ _ => rfl)
    [1, 2, 3] goodLoaded (by decide) (by decide) (by decide)
  exact ⟨h.1, h.2.2.1, h.2.2.2⟩
